import Mathlib

/-!
Verification of the tag/VM registry (src/tag_api) against its specification.

The Django models and views are shallowly embedded as pure functions over an
explicit store.  Each view function is translated from views.py; the model
save hook is translated from models.py.  Database ids (UUIDs, auto ids) are
modelled as naturals, request parameters as Options (None when absent), and
the many-to-many table vms-tags as a list of (tag_id, vm_id) pairs.  Regex
matching is an external capability of the store, so the VM listing is
parameterised by an abstract matcher.  Response message texts are kept close
to the literals in the source; interpolated exception texts are abbreviated,
branches are identified by status and error_code.
-/

namespace TagApi

/-- A row of the tags table (models.py, TagsModel).  The save hook rejects
null and empty names, so stored names are plain strings. -/
structure Tag where
  tag_id : Nat
  tag_name : String
  scope : Option String
  user_id : Nat
  deriving Repr, DecidableEq

/-- A row of the vms table (models.py, VM).  creation_date plays no role in
any claim and is omitted. -/
structure VMRec where
  vm_id : Nat
  vm_name : String
  deriving Repr, DecidableEq

/-- The relational store: user ids, tag rows, vm rows, and the rows of the
many-to-many through table as (tag_id, vm_id) pairs. -/
structure Store where
  users : List Nat
  tags : List Tag
  vms : List VMRec
  assoc : List (Nat × Nat)
  deriving Repr, DecidableEq

/-- The uniform JSON envelope of views.py (data payload omitted). -/
structure Resp where
  status : String
  error_code : Nat
  message : String
  deriving Repr, DecidableEq

/-- Result of a view call: a JsonResponse, or an exception that escapes the
view because no except clause of that view catches it. -/
inductive ViewResult where
  | json (r : Resp)
  | uncaughtHttp404
  deriving Repr, DecidableEq

/-- views.py line 111: the Python idiom scope or None maps the empty string
(and None) to None and keeps every other string. -/
def pyOrNone (s : Option String) : Option String :=
  match s with
  | some "" => none
  | x => x

/-- models.py line 57: self.scope = None if self.scope == empty else self.scope. -/
def normScope (s : Option String) : Option String :=
  match s with
  | some "" => none
  | x => x

/-- models.py lines 47-62, TagsModel.save: reject a missing or empty
tag_name (ValidationError), normalise the empty scope to null, reject a
(tag_name, scope) duplicate (ValidationError), otherwise insert the row. -/
def tagsModelSave (st : Store) (tagId : Nat) (tagName : String)
    (scope : Option String) (userId : Nat) : Except String Store :=
  if tagName = "" then
    .error "tag_name is required and cannot be empty."
  else
    let sc := normScope scope
    if st.tags.any (fun t => t.tag_name == tagName && t.scope == sc) then
      .error "This tag already exists."
    else
      .ok { st with tags := st.tags ++ [⟨tagId, tagName, sc, userId⟩] }

/-- views.py lines 89-144, Tags.post (createTag).  The tags_form always
validates (both fields optional, request.POST empty for a JSON body).  The
view applies scope or None, then looks up the user: a missing user raises
Http404, which no except clause of this method catches, so it escapes the
view.  A ValidationError from save is answered with code 103; the
IntegrityError branch (code 102) is reachable only when the database unique
constraint fires without the application check seeing the duplicate, which
cannot happen in this sequential model. -/
def Tags_post (st : Store) (newTagId : Nat) (tag_name : Option String)
    (scope : Option String) (user_id : Nat) : ViewResult × Store :=
  if st.users.contains user_id then
    match tagsModelSave st newTagId (tag_name.getD "") (pyOrNone scope) user_id with
    | .ok st2 => (.json ⟨"success", 0, "Tag Added successfully"⟩, st2)
    | .error msg => (.json ⟨"error", 103, "error: " ++ msg⟩, st)
  else
    (.uncaughtHttp404, st)

/-- views.py lines 147-205, Tags.delete (deleteTag).  Absent parameters
(None, the string None, or empty) are modelled as none.  is_assigned mirrors
filter(tag_id, vms__isnull=False).exists(): some tag row with this id has an
associated VM.  The admin check compares the user id with 1; is_exist counts
tag rows with this id owned by the requester.  A successful delete removes
the tag rows with this id and, by cascade on the through table, their
associations. -/
def Tags_delete (st : Store) (tag_id : Option Nat) (user_id : Option Nat) :
    Resp × Store :=
  match tag_id with
  | none => (⟨"error", 100, "Tag id is required"⟩, st)
  | some tid =>
    match user_id with
    | none => (⟨"error", 400, "User id is required"⟩, st)
    | some uid =>
      let is_assigned := st.tags.any
        (fun t => t.tag_id == tid && st.assoc.any (fun p => p.1 == t.tag_id))
      if is_assigned then
        (⟨"error", 101, "Tag is assigned to VMs. Unassign it before deleting."⟩, st)
      else
        let is_admin := uid == 1
        let is_exist := (st.tags.filter (fun t => t.tag_id == tid && t.user_id == uid)).length
        if is_admin || is_exist > 0 then
          (⟨"success", 0, "Tag deleted successfully."⟩,
            { st with
                tags := st.tags.filter (fun t => !(t.tag_id == tid)),
                assoc := st.assoc.filter (fun p => !(p.1 == tid)) })
        else
          (⟨"error", 100, "Invalid Request."⟩, st)

/-- Django ManyRelatedManager.add: insert each pair that is not already
present; existing pairs are left alone (the through table never holds a
duplicate pair). -/
def m2mAdd (st : Store) (tagId : Nat) (vmIds : List Nat) : Store :=
  { st with
      assoc := vmIds.foldl
        (fun a v => if a.contains (tagId, v) then a else a ++ [(tagId, v)]) st.assoc }

/-- Django ManyRelatedManager.remove: drop the pairs of this tag whose vm is
listed; absent pairs are a no-op. -/
def m2mRemove (st : Store) (tagId : Nat) (vmIds : List Nat) : Store :=
  { st with
      assoc := st.assoc.filter (fun p => !(p.1 == tagId && vmIds.contains p.2)) }

/-- views.py lines 211-267, AssignUnassignTags.post.  get_object_or_404 by
tag_name: no match raises Http404 and several matches raise
MultipleObjectsReturned, both caught by the generic except Exception clause
of this method and answered with code 101.  add with an unknown vm id
violates the foreign key of the through table; the insert fails as a unit
and the generic clause answers 101.  remove ignores unknown ids. -/
def AssignUnassignTags_post (st : Store) (action : Option String)
    (tag_name : Option String) (vm_ids : List Nat) : Resp × Store :=
  if action == some "assign" then
    match st.tags.filter (fun t => some t.tag_name == tag_name) with
    | [] => (⟨"error", 101, "error: No TagsModel matches the given query."⟩, st)
    | [t] =>
      if vm_ids.all (fun v => st.vms.any (fun vm => vm.vm_id == v)) then
        (⟨"success", 0, "Tag Assigned to Objects successfully"⟩, m2mAdd st t.tag_id vm_ids)
      else
        (⟨"error", 101, "error: FOREIGN KEY constraint failed"⟩, st)
    | _ => (⟨"error", 101, "error: get returned more than one TagsModel"⟩, st)
  else if action == some "unassign" then
    match st.tags.filter (fun t => some t.tag_name == tag_name) with
    | [] => (⟨"error", 101, "error: No TagsModel matches the given query."⟩, st)
    | [t] =>
      (⟨"success", 0, "Tag Unassigned from Objects successfully"⟩, m2mRemove st t.tag_id vm_ids)
    | _ => (⟨"error", 101, "error: get returned more than one TagsModel"⟩, st)
  else
    (⟨"error", 108, "Invalid action"⟩, st)

/-- The tags attached to a VM, through the association table. -/
def vmTags (st : Store) (v : VMRec) : List Tag :=
  st.tags.filter (fun t => st.assoc.contains (t.tag_id, v.vm_id))

/-- Django iexact lookup: case-insensitive exact string match. -/
def iexact (a b : String) : Bool :=
  a.toLower == b.toLower

/-- views.py lines 306-312: the OR of iexact lookups over the stripped
tag_name filters, applied to one tag. -/
def tagNameMatches (tag_names : List String) (t : Tag) : Bool :=
  tag_names.any (fun n => iexact t.tag_name n.trim)

/-- views.py line 317: one scope regex applied to the scope of one tag; a
null scope never matches (SQL NULL REGEXP is not true).  The matcher is the
abstract regex capability of the store. -/
def scopeMatches (rmatch : String → String → Bool) (pat : String) (t : Tag) : Bool :=
  match t.scope with
  | some sc => rmatch pat sc
  | none => false

/-- One filter step of the scope loop: keep the VMs having at least one
attached tag whose scope matches the pattern. -/
def scopeRegexFilter (rmatch : String → String → Bool) (st : Store) (pat : String)
    (qs : List VMRec) : List VMRec :=
  qs.filter (fun v => (vmTags st v).any (scopeMatches rmatch pat))

/-- views.py lines 300-323, VMs.get without vm_id (listVMs): the tag_name
filters are OR-combined in a single queryset filter (then reduced to the
distinct vm ids, so the result is the set of VMs with at least one matching
tag); the scope filters are applied one after the other, each keeping the
VMs with at least one attached tag whose scope matches that regex.  The
result is the list of selected VMs. -/
def VMs_get_list (rmatch : String → String → Bool) (st : Store)
    (tag_names : List String) (scopes : List String) : List VMRec :=
  scopes.foldl (fun q s => scopeRegexFilter rmatch st s.trim q)
    (if tag_names.isEmpty then st.vms
     else st.vms.filter (fun v => (vmTags st v).any (tagNameMatches tag_names)))

/-- Python str.split with a single separator character: every occurrence
splits, empty segments are kept.  Implemented over the character list so
that it evaluates by kernel reduction. -/
def pySplit (s : String) (c : Char) : List String :=
  (s.data.splitOn c).map (fun l => String.mk l)

/-- Exceptions of the tag-attachment loop of VMs.post. -/
inductive AttachErr where
  | validationError (msg : String)
  | valueError
  deriving Repr, DecidableEq

/-- views.py lines 380-387, the tag loop of VMs.post.  Each spec is split on
every colon and unpacked into exactly two parts; any other shape raises
ValueError.  The reuse lookup filters on the raw name and scope strings (no
normalisation); when it misses, a tag is created through TagsModel.save,
whose ValidationError aborts the loop.  The created or found tag is attached
to the VM.  On error the store reached so far is returned with the
exception. -/
def attachTags : List String → Store → Nat → List Nat → Nat →
    Except (AttachErr × Store) Store
  | [], st, _, _, _ => .ok st
  | s :: rest, st, vmId, freshIds, uid =>
    match pySplit s ':' with
    | [n, sc] =>
      match st.tags.find? (fun t => t.tag_name == n && t.scope == some sc) with
      | some t => attachTags rest (m2mAdd st t.tag_id [vmId]) vmId freshIds uid
      | none =>
        match tagsModelSave st (freshIds.headD 0) n (some sc) uid with
        | .error m => .error (.validationError m, st)
        | .ok st2 =>
          attachTags rest (m2mAdd st2 (freshIds.headD 0) [vmId]) vmId freshIds.tail uid
    | _ => .error (.valueError, st)

/-- Delete a VM row and, by cascade on the through table, its associations.
Tags themselves are untouched. -/
def removeVMRow (st : Store) (vmId : Nat) : Store :=
  { st with
      vms := st.vms.filter (fun v => !(v.vm_id == vmId)),
      assoc := st.assoc.filter (fun p => !(p.2 == vmId)) }

/-- views.py lines 337-402, VMs.post (createVM).  A duplicate vm_name is
answered with code 102 before any insert.  The VM row is created, then, when
the tags list is non-empty, the owner is looked up: a missing owner raises
Http404, caught by the generic except Exception clause (code 101) with no
compensating delete, so the VM row stays.  A ValidationError from the tag
loop is caught by the ValidationError clause, which deletes the VM row
(code 103).  A ValueError from unpacking a malformed spec falls to the
generic clause (code 101), again without compensation.  newVmId is the
fresh id the store assigns to the row, freshTagIds the supply of fresh tag
ids. -/
def VMs_post (st : Store) (newVmId : Nat) (freshTagIds : List Nat)
    (vm_name : String) (tags : List String) (user_id : Nat) : Resp × Store :=
  if st.vms.any (fun vm => vm.vm_name == vm_name) then
    (⟨"error", 102, "This VM Already exists."⟩, st)
  else
    let st1 : Store := { st with vms := st.vms ++ [⟨newVmId, vm_name⟩] }
    if tags.isEmpty then
      (⟨"success", 0, "VM added successfully."⟩, st1)
    else if st1.users.contains user_id then
      match attachTags tags st1 newVmId freshTagIds user_id with
      | .ok st2 => (⟨"success", 0, "VM added successfully."⟩, st2)
      | .error (.validationError m, stE) =>
        (⟨"error", 103, "Validation error: " ++ m⟩, removeVMRow stE newVmId)
      | .error (.valueError, stE) =>
        (⟨"error", 101, "Error: not enough values to unpack"⟩, stE)
    else
      (⟨"error", 101, "Error: No UserProfile matches the given query."⟩, st1)

/-- Keyword arguments the ORM resolves on the VM model: its concrete fields
and the pk alias.  Django adds no implicit id column here because vm_id is
declared as the primary key. -/
def vmFieldKeywords : List String :=
  ["vm_id", "vm_name", "creation_date", "tags", "pk"]

/-- views.py lines 455-480, VMs.delete (deleteVM).  The lookup is written
VM.objects.get(id=vm_id), but id is not among the keywords the ORM resolves
on this model, so the call raises FieldError before touching any row; the
generic except Exception clause answers with code 101.  The DoesNotExist
branch (code 100) and the delete are kept as the dead branch they are in the
source, guarded by the keyword check. -/
def VMs_delete (st : Store) (vm_id : Nat) : Resp × Store :=
  if vmFieldKeywords.contains "id" then
    match st.vms.find? (fun v => v.vm_id == vm_id) with
    | some _ => (⟨"success", 0, "VM deleted successfully"⟩, removeVMRow st vm_id)
    | none => (⟨"error", 100, "VM not found"⟩, st)
  else
    (⟨"error", 101, "Error: Cannot resolve keyword id into field"⟩, st)

/-- Store of the C1 counterexample: user 7 owns the tag (env, prod). -/
def c1Store : Store := ⟨[7], [⟨1, "env", some "prod", 7⟩], [], []⟩

/-- Store of the C3 counterexample: empty, in particular user 5 is unknown. -/
def c3Store : Store := ⟨[], [], [], []⟩

/-- Store of the C8 counterexample: one VM, no tag at all. -/
def c8Store : Store := ⟨[1], [], [⟨5, "vm-a"⟩], []⟩

/-- Store of the C9 failing input: user 7 owns the tag (env, null scope). -/
def c9Store : Store := ⟨[7], [⟨1, "env", none, 7⟩], [], []⟩

/-- Store of several witnesses: user 2 owns tag 1, attached to VM 5. -/
def wStore : Store := ⟨[2, 3], [⟨1, "rel", some "v1", 2⟩], [⟨5, "vm-a"⟩], [(1, 5)]⟩

/-- Store of the C7 witness: one tag named env, one VM, no association. -/
def c7Store : Store := ⟨[1], [⟨10, "env", none, 1⟩], [⟨5, "vm-a"⟩], []⟩

/-- The tag row of wStore. -/
def wTag : Tag := ⟨1, "rel", some "v1", 2⟩

/-- The tag row of c7Store. -/
def c7Tag : Tag := ⟨10, "env", none, 1⟩

theorem scopeMatches_iff (rmatch : String → String → Bool) (pat : String) (t : Tag) :
    scopeMatches rmatch pat t = true ↔
      ∃ sc, t.scope = some sc ∧ rmatch pat sc = true := by
  rcases t with ⟨i, n, sc, u⟩
  cases sc <;> simp [scopeMatches]

theorem mem_scopeFoldl (rmatch : String → String → Bool) (st : Store) :
    ∀ (scopes : List String) (qs : List VMRec) (v : VMRec),
      v ∈ scopes.foldl (fun q s => scopeRegexFilter rmatch st s.trim q) qs ↔
        v ∈ qs ∧
          ∀ s ∈ scopes, (vmTags st v).any (scopeMatches rmatch s.trim) = true := by
  intro scopes
  induction scopes with
  | nil => intro qs v; simp
  | cons s rest ih =>
    intro qs v
    rw [List.foldl_cons, ih]
    simp only [scopeRegexFilter, List.mem_filter, List.forall_mem_cons]
    tauto

/-- C4: without vm_id, the tag_name filters are OR-combined with
case-insensitive exact matching, so the result contains exactly the VMs with
at least one tag whose lowered name equals some lowered (stripped) filter;
the scope filters are AND-combined, each a regex that must be matched by the
scope of at least one attached tag. -/
theorem listVMs_filter_semantics (rmatch : String → String → Bool) (st : Store)
    (tag_names scopes : List String) (v : VMRec) :
    v ∈ VMs_get_list rmatch st tag_names scopes ↔
      v ∈ st.vms ∧
      (tag_names = [] ∨
        ∃ t ∈ vmTags st v, ∃ n ∈ tag_names, t.tag_name.toLower = n.trim.toLower) ∧
      (∀ s ∈ scopes,
        ∃ t ∈ vmTags st v, ∃ sc, t.scope = some sc ∧ rmatch s.trim sc = true) := by
  unfold VMs_get_list
  rw [mem_scopeFoldl]
  have hscope : ∀ s : String,
      ((vmTags st v).any (scopeMatches rmatch s.trim) = true ↔
        ∃ t ∈ vmTags st v, ∃ sc, t.scope = some sc ∧ rmatch s.trim sc = true) := by
    intro s
    rw [List.any_eq_true]
    constructor
    · rintro ⟨t, ht, hm⟩
      rcases (scopeMatches_iff rmatch s.trim t).mp hm with ⟨sc, hsc, hr⟩
      exact ⟨t, ht, sc, hsc, hr⟩
    · rintro ⟨t, ht, sc, hsc, hr⟩
      exact ⟨t, ht, (scopeMatches_iff rmatch s.trim t).mpr ⟨sc, hsc, hr⟩⟩
  have hname : v ∈ (if tag_names.isEmpty then st.vms
      else st.vms.filter (fun v2 => (vmTags st v2).any (tagNameMatches tag_names))) ↔
      v ∈ st.vms ∧ (tag_names = [] ∨
        ∃ t ∈ vmTags st v, ∃ n ∈ tag_names, t.tag_name.toLower = n.trim.toLower) := by
    cases tag_names with
    | nil => simp
    | cons n0 ns =>
      simp only [List.isEmpty_cons, if_false, Bool.false_eq_true, List.mem_filter,
        tagNameMatches, iexact, List.any_eq_true, beq_iff_eq]
      constructor
      · rintro ⟨hv, t, ht, n, hn, he⟩
        exact ⟨hv, Or.inr ⟨t, ht, n, hn, he⟩⟩
      · rintro ⟨hv, h⟩
        rcases h with h | ⟨t, ht, n, hn, he⟩
        · exact absurd h (by simp)
        · exact ⟨hv, t, ht, n, hn, he⟩
  rw [hname]
  constructor
  · rintro ⟨⟨hv, hn⟩, hs⟩
    exact ⟨hv, hn, fun s hsmem => (hscope s).mp (hs s hsmem)⟩
  · rintro ⟨hv, hn, hs⟩
    exact ⟨⟨hv, hn⟩, fun s hsmem => (hscope s).mpr (hs s hsmem)⟩

/-- C2: as written, deleteVM never reaches the row at all: the lookup uses
the keyword id, which does not exist on the VM model, so for every store and
every vm_id the call answers with the generic error code 101 and leaves the
store unchanged.  It never returns the NotFound response and never deletes
the VM or its associations. -/
theorem deleteVM_always_fieldError (st : Store) (vm_id : Nat) :
    VMs_delete st vm_id =
      (⟨"error", 101, "Error: Cannot resolve keyword id into field"⟩, st) := by
  unfold VMs_delete
  rw [if_neg (by decide)]

/-- C1 counterexample: over c1Store, which already holds the tag
(env, prod), creating (env, prod) again answers with the ValidationError
response carrying code 103, not with the duplicate response carrying code
102, and the store is unchanged. -/
theorem createTag_duplicate_code102_counterexample :
    (Tags_post c1Store 2 (some "env") (some "prod") 7).1 =
      ViewResult.json ⟨"error", 103, "error: This tag already exists."⟩ ∧
    (Tags_post c1Store 2 (some "env") (some "prod") 7).1 ≠
      ViewResult.json ⟨"error", 102, "This Tag Already exist"⟩ ∧
    (Tags_post c1Store 2 (some "env") (some "prod") 7).2 = c1Store := by
  decide

/-- C1 amended: creating a tag whose name and normalised scope already occur
in the store fails with the ValidationError response, error code 103 (the
save hook raises before the insert, so the IntegrityError branch with code
102 is not reached), and the store is unchanged, so no second row with that
pair is added. -/
theorem createTag_duplicate_rejected_code103 (st : Store) (newId : Nat)
    (tn : String) (scope : Option String) (uid : Nat) (t : Tag)
    (hUser : st.users.contains uid = true)
    (htn : tn ≠ "")
    (hMem : t ∈ st.tags)
    (hName : t.tag_name = tn)
    (hScope : t.scope = normScope (pyOrNone scope)) :
    (Tags_post st newId (some tn) scope uid).1 =
      ViewResult.json ⟨"error", 103, "error: This tag already exists."⟩ ∧
    (Tags_post st newId (some tn) scope uid).2 = st := by
  have hdup : st.tags.any
      (fun t2 => t2.tag_name == tn && t2.scope == normScope (pyOrNone scope)) = true := by
    rw [List.any_eq_true]
    exact ⟨t, hMem, by simp [hName, hScope]⟩
  simp only [Tags_post, tagsModelSave, hUser, if_true, Option.getD_some,
    if_neg htn, hdup]
  exact ⟨rfl, trivial⟩

/-- C1 witness: the amended claim evaluated over c1Store. -/
theorem createTag_duplicate_rejected_code103_witness :
    (Tags_post c1Store 2 (some "env") (some "prod") 7).1 =
      ViewResult.json ⟨"error", 103, "error: This tag already exists."⟩ ∧
    (Tags_post c1Store 2 (some "env") (some "prod") 7).2 = c1Store :=
  createTag_duplicate_rejected_code103 c1Store 2 "env" (some "prod") 7
    ⟨1, "env", some "prod", 7⟩ (by decide) (by decide) (by decide) (by decide)
    (by decide)

/-- C3 counterexample: over the empty c3Store, creating vm-a with one tag
spec and the unknown owner 5 answers with the generic code 101 (the Http404
of the owner lookup is caught by the catch-all clause), not with the
NotFound code 100, and the VM row created by the call is still in the store
afterwards. -/
theorem createVM_missing_user_counterexample :
    (VMs_post c3Store 10 [2] "vm-a" ["env:prod"] 5).1.error_code = 101 ∧
    (VMs_post c3Store 10 [2] "vm-a" ["env:prod"] 5).1.error_code ≠ 100 ∧
    (VMs_post c3Store 10 [2] "vm-a" ["env:prod"] 5).2.vms =
      [⟨10, "vm-a"⟩] := by
  decide

/-- C3 amended: whenever the tags list is non-empty, the vm_name is fresh
and the owner does not resolve, createVM fails with the generic error code
101 and the VM row inserted by the call remains in the store; the
compensating delete runs only in the ValidationError branch. -/
theorem createVM_missing_user_dangling_row (st : Store) (newVmId : Nat)
    (ids : List Nat) (vm_name : String) (tags : List String) (uid : Nat)
    (hFresh : st.vms.any (fun vm => vm.vm_name == vm_name) = false)
    (hTags : tags ≠ [])
    (hUser : st.users.contains uid = false) :
    (VMs_post st newVmId ids vm_name tags uid).1 =
      ⟨"error", 101, "Error: No UserProfile matches the given query."⟩ ∧
    (⟨newVmId, vm_name⟩ : VMRec) ∈ (VMs_post st newVmId ids vm_name tags uid).2.vms := by
  have hne : tags.isEmpty = false := by
    cases tags with
    | nil => exact absurd rfl hTags
    | cons a l => rfl
  simp only [VMs_post, hFresh, hne, hUser, Bool.false_eq_true, if_false]
  exact ⟨trivial, List.mem_append_right _ (List.mem_singleton.mpr rfl)⟩

/-- C3 witness: the amended claim evaluated over c3Store. -/
theorem createVM_missing_user_dangling_row_witness :
    (VMs_post c3Store 10 [2] "vm-a" ["env:prod"] 5).1 =
      ⟨"error", 101, "Error: No UserProfile matches the given query."⟩ ∧
    (⟨10, "vm-a"⟩ : VMRec) ∈ (VMs_post c3Store 10 [2] "vm-a" ["env:prod"] 5).2.vms :=
  createVM_missing_user_dangling_row c3Store 10 [2] "vm-a" ["env:prod"] 5
    (by decide) (by decide) (by decide)

/-- Helper: with no association of the tag id, the is_assigned probe of
Tags.delete is false. -/
theorem tagsDelete_not_assigned (st : Store) (tid : Nat)
    (hFree : ∀ p ∈ st.assoc, p.1 ≠ tid) :
    st.tags.any
      (fun t2 => t2.tag_id == tid && st.assoc.any (fun p => p.1 == t2.tag_id)) = false := by
  refine Bool.eq_false_iff.mpr ?_
  rw [ne_eq, List.any_eq_true]
  rintro ⟨t2, ht2, hp⟩
  rw [Bool.and_eq_true, beq_iff_eq] at hp
  rcases hp with ⟨hid, hany⟩
  rw [List.any_eq_true] at hany
  rcases hany with ⟨p, hpmem, hpe⟩
  rw [beq_iff_eq] at hpe
  exact hFree p hpmem (by rw [hpe, hid])

/-- Helper: an authorised delete of an unattached tag takes the success
branch and filters the tag rows and associations of that id out of the
store. -/
theorem tagsDelete_authorized_success (st : Store) (t : Tag) (uid : Nat)
    (hMem : t ∈ st.tags)
    (hFree : ∀ p ∈ st.assoc, p.1 ≠ t.tag_id)
    (hAuth : uid = 1 ∨ t.user_id = uid) :
    Tags_delete st (some t.tag_id) (some uid) =
      (⟨"success", 0, "Tag deleted successfully."⟩,
        { st with
            tags := st.tags.filter (fun t2 => !(t2.tag_id == t.tag_id)),
            assoc := st.assoc.filter (fun p => !(p.1 == t.tag_id)) }) := by
  have hA := tagsDelete_not_assigned st t.tag_id hFree
  have hCond : (uid == 1 ||
      decide ((st.tags.filter
        (fun t2 => t2.tag_id == t.tag_id && t2.user_id == uid)).length > 0)) = true := by
    rcases hAuth with h1 | hown
    · subst h1; simp
    · rw [Bool.or_eq_true]
      right
      rw [decide_eq_true_eq]
      have hmemf : t ∈ st.tags.filter
          (fun t2 => t2.tag_id == t.tag_id && t2.user_id == uid) :=
        List.mem_filter.mpr ⟨hMem, by simp [hown]⟩
      exact List.length_pos.mpr (List.ne_nil_of_mem hmemf)
  simp only [Tags_delete, hA, Bool.false_eq_true, if_false, hCond, if_true]

/-- C5: a tag attached to at least one VM cannot be deleted: the call
answers with the in-use branch and leaves the store unchanged, so the tag
remains; once no association of the tag is left, deletion by the admin or by
the owner succeeds and no row with that tag id survives. -/
theorem deleteTag_in_use_guard (st : Store) (t : Tag) (uid v : Nat)
    (hMem : t ∈ st.tags) :
    ((t.tag_id, v) ∈ st.assoc →
      Tags_delete st (some t.tag_id) (some uid) =
        (⟨"error", 101, "Tag is assigned to VMs. Unassign it before deleting."⟩, st)) ∧
    ((∀ p ∈ st.assoc, p.1 ≠ t.tag_id) → (uid = 1 ∨ t.user_id = uid) →
      (Tags_delete st (some t.tag_id) (some uid)).1 =
        ⟨"success", 0, "Tag deleted successfully."⟩ ∧
      ∀ t2 ∈ (Tags_delete st (some t.tag_id) (some uid)).2.tags,
        t2.tag_id ≠ t.tag_id) := by
  constructor
  · intro hv
    have hA : st.tags.any
        (fun t2 => t2.tag_id == t.tag_id &&
          st.assoc.any (fun p => p.1 == t2.tag_id)) = true := by
      rw [List.any_eq_true]
      refine ⟨t, hMem, ?_⟩
      rw [Bool.and_eq_true]
      refine ⟨by simp, ?_⟩
      rw [List.any_eq_true]
      exact ⟨(t.tag_id, v), hv, by simp⟩
    simp only [Tags_delete, hA, if_true]
  · intro hFree hAuth
    rw [tagsDelete_authorized_success st t uid hMem hFree hAuth]
    refine ⟨rfl, ?_⟩
    intro t2 ht2
    have := (List.mem_filter.mp ht2).2
    simpa using this

/-- C5 witness: over wStore, tag 1 is attached to VM 5, so its deletion by
the owner fails with the in-use branch; over the same store with the
association gone, the owner deletes it successfully. -/
theorem deleteTag_in_use_guard_witness :
    Tags_delete wStore (some wTag.tag_id) (some 2) =
      (⟨"error", 101, "Tag is assigned to VMs. Unassign it before deleting."⟩, wStore) ∧
    (Tags_delete ⟨[2, 3], [wTag], [⟨5, "vm-a"⟩], []⟩ (some wTag.tag_id) (some 2)).1 =
      ⟨"success", 0, "Tag deleted successfully."⟩ :=
  ⟨(deleteTag_in_use_guard wStore wTag 2 5 (by decide)).1 (by decide),
    ((deleteTag_in_use_guard ⟨[2, 3], [wTag], [⟨5, "vm-a"⟩], []⟩ wTag 2 5
      (by decide)).2 (by decide) (by decide)).1⟩

/-- C6: over an existing, unattached tag whose id is unique in the store, a
requester who is neither the owner nor the admin id 1 gets the Invalid
Request response with code 100 and the store is unchanged, while the owner
or the admin gets the success response and no row with that tag id
survives. -/
theorem deleteTag_ownership_rule (st : Store) (t : Tag) (uid : Nat)
    (hMem : t ∈ st.tags)
    (hFree : ∀ p ∈ st.assoc, p.1 ≠ t.tag_id)
    (hUniq : ∀ t2 ∈ st.tags, t2.tag_id = t.tag_id → t2 = t) :
    (uid ≠ 1 → t.user_id ≠ uid →
      Tags_delete st (some t.tag_id) (some uid) =
        (⟨"error", 100, "Invalid Request."⟩, st)) ∧
    ((uid = 1 ∨ t.user_id = uid) →
      (Tags_delete st (some t.tag_id) (some uid)).1 =
        ⟨"success", 0, "Tag deleted successfully."⟩ ∧
      ∀ t2 ∈ (Tags_delete st (some t.tag_id) (some uid)).2.tags,
        t2.tag_id ≠ t.tag_id) := by
  constructor
  · intro hna hno
    have hA := tagsDelete_not_assigned st t.tag_id hFree
    have hAdmin : (uid == 1) = false := by
      rw [beq_eq_false_iff_ne]
      exact hna
    have hExist : st.tags.filter
        (fun t2 => t2.tag_id == t.tag_id && t2.user_id == uid) = [] := by
      rw [List.filter_eq_nil_iff]
      intro t2 ht2
      rw [Bool.not_eq_true, Bool.and_eq_false_iff]
      by_cases hid : t2.tag_id = t.tag_id
      · right
        rw [beq_eq_false_iff_ne]
        rw [hUniq t2 ht2 hid]
        exact hno
      · left
        rw [beq_eq_false_iff_ne]
        exact hid
    simp only [Tags_delete, hA, Bool.false_eq_true, if_false, hAdmin, hExist,
      List.length_nil, gt_iff_lt, lt_self_iff_false, decide_False,
      Bool.or_self, if_false]
  · intro hAuth
    rw [tagsDelete_authorized_success st t uid hMem hFree hAuth]
    refine ⟨rfl, ?_⟩
    intro t2 ht2
    have := (List.mem_filter.mp ht2).2
    simpa using this

/-- C6 witness: over wStore with the association removed, user 3 (neither
owner 2 nor admin 1) is refused with code 100, and the owner 2 deletes the
tag. -/
theorem deleteTag_ownership_rule_witness :
    Tags_delete ⟨[2, 3], [wTag], [⟨5, "vm-a"⟩], []⟩ (some wTag.tag_id) (some 3) =
      (⟨"error", 100, "Invalid Request."⟩, ⟨[2, 3], [wTag], [⟨5, "vm-a"⟩], []⟩) ∧
    (Tags_delete ⟨[2, 3], [wTag], [⟨5, "vm-a"⟩], []⟩ (some wTag.tag_id) (some 1)).1 =
      ⟨"success", 0, "Tag deleted successfully."⟩ :=
  ⟨(deleteTag_ownership_rule ⟨[2, 3], [wTag], [⟨5, "vm-a"⟩], []⟩ wTag 3
      (by decide) (by decide) (by decide)).1 (by decide) (by decide),
    ((deleteTag_ownership_rule ⟨[2, 3], [wTag], [⟨5, "vm-a"⟩], []⟩ wTag 1
      (by decide) (by decide) (by decide)).2 (Or.inl rfl)).1⟩

/-- Helper: adding one pair to the through table keeps the pair count of an
already stored pair and raises the count of a new pair to one. -/
theorem m2mAdd_single_assoc (st : Store) (tid v : Nat) :
    (m2mAdd st tid [v]).assoc =
      if st.assoc.contains (tid, v) then st.assoc else st.assoc ++ [(tid, v)] := by
  simp [m2mAdd]

/-- Helper: a single assign call over a store whose tag rows of the name
filter to exactly one tag, all listed vms existing, takes the success branch
and adds through m2mAdd. -/
theorem assign_single_step (st : Store) (t : Tag) (n : String) (v : Nat)
    (hTag : st.tags.filter (fun t2 => some t2.tag_name == some n) = [t])
    (hVM : st.vms.any (fun vm => vm.vm_id == v) = true) :
    AssignUnassignTags_post st (some "assign") (some n) [v] =
      (⟨"success", 0, "Tag Assigned to Objects successfully"⟩, m2mAdd st t.tag_id [v]) := by
  have hall : ([v].all (fun v2 => st.vms.any (fun vm => vm.vm_id == v2))) = true := by
    simp [hVM]
  simp only [AssignUnassignTags_post, hTag, hall, if_true, beq_self_eq_true,
    if_pos rfl]

/-- C7: assign is idempotent.  With exactly one tag of the given name and an
existing VM, the second assign of the same pair returns success and leaves
the store of the first call unchanged, and that store holds exactly one
association row for the pair.  The count hypothesis is the uniqueness of the
through table, which m2mAdd preserves. -/
theorem assign_idempotent (st : Store) (t : Tag) (n : String) (v : Nat)
    (hTag : st.tags.filter (fun t2 => some t2.tag_name == some n) = [t])
    (hVM : st.vms.any (fun vm => vm.vm_id == v) = true)
    (hInv : st.assoc.count (t.tag_id, v) ≤ 1) :
    AssignUnassignTags_post (AssignUnassignTags_post st (some "assign") (some n) [v]).2
        (some "assign") (some n) [v] =
      (⟨"success", 0, "Tag Assigned to Objects successfully"⟩,
        (AssignUnassignTags_post st (some "assign") (some n) [v]).2) ∧
    ((AssignUnassignTags_post st (some "assign") (some n) [v]).2).assoc.count
        (t.tag_id, v) = 1 := by
  rw [assign_single_step st t n v hTag hVM]
  have htags1 : (m2mAdd st t.tag_id [v]).tags = st.tags := rfl
  have hvms1 : (m2mAdd st t.tag_id [v]).vms = st.vms := rfl
  have hstep2 := assign_single_step (m2mAdd st t.tag_id [v]) t n v
    (by rw [htags1]; exact hTag) (by rw [hvms1]; exact hVM)
  rw [hstep2]
  have hcontains : (m2mAdd st t.tag_id [v]).assoc.contains (t.tag_id, v) = true := by
    rw [m2mAdd_single_assoc]
    by_cases hc : st.assoc.contains (t.tag_id, v) = true
    · rw [if_pos hc]; exact hc
    · rw [if_neg hc]
      exact List.elem_eq_true_of_mem
        (List.mem_append_right _ (List.mem_singleton.mpr rfl))
  have hsame : m2mAdd (m2mAdd st t.tag_id [v]) t.tag_id [v] = m2mAdd st t.tag_id [v] := by
    have hmem : (t.tag_id, v) ∈ (m2mAdd st t.tag_id [v]).assoc :=
      List.mem_of_elem_eq_true hcontains
    rcases hm : m2mAdd st t.tag_id [v] with ⟨u2, t2, v2, a2⟩
    rw [hm] at hmem
    simp [m2mAdd, hmem]
  have hcount : (m2mAdd st t.tag_id [v]).assoc.count (t.tag_id, v) = 1 := by
    rw [m2mAdd_single_assoc]
    by_cases hc : st.assoc.contains (t.tag_id, v) = true
    · rw [if_pos hc]
      have hmem : (t.tag_id, v) ∈ st.assoc := List.mem_of_elem_eq_true hc
      have h1 : 0 < st.assoc.count (t.tag_id, v) := List.count_pos_iff.mpr hmem
      omega
    · rw [if_neg hc]
      have hnmem : (t.tag_id, v) ∉ st.assoc := fun hmem =>
        hc (List.elem_eq_true_of_mem hmem)
      rw [List.count_append, List.count_eq_zero.mpr hnmem]
      simp
  exact ⟨by rw [hsame], hcount⟩

/-- C7 witness: the idempotence claim evaluated over c7Store. -/
theorem assign_idempotent_witness :
    AssignUnassignTags_post (AssignUnassignTags_post c7Store (some "assign") (some "env") [5]).2
        (some "assign") (some "env") [5] =
      (⟨"success", 0, "Tag Assigned to Objects successfully"⟩,
        (AssignUnassignTags_post c7Store (some "assign") (some "env") [5]).2) ∧
    ((AssignUnassignTags_post c7Store (some "assign") (some "env") [5]).2).assoc.count
        (c7Tag.tag_id, 5) = 1 :=
  assign_idempotent c7Store c7Tag "env" 5 (by decide) (by decide) (by decide)

/-- C8 counterexample: over c8Store, which holds no tag at all, assign of
the name missing to VM 5 answers with the generic code 101, not with the
NotFound code 100, and the store (so the association table) is unchanged. -/
theorem assign_missing_tag_counterexample :
    (AssignUnassignTags_post c8Store (some "assign") (some "missing") [5]).1.error_code = 101 ∧
    (AssignUnassignTags_post c8Store (some "assign") (some "missing") [5]).1.error_code ≠ 100 ∧
    (AssignUnassignTags_post c8Store (some "assign") (some "missing") [5]).2 = c8Store := by
  decide

/-- C8 amended: assign with a tag_name no tag carries fails with the generic
exception response, code 101 (the Http404 of get_object_or_404 is caught by
the catch-all clause of the method), and the store is unchanged, so no
association is created. -/
theorem assign_missing_tag_code101 (st : Store) (n : String) (vm_ids : List Nat)
    (hNo : ∀ t ∈ st.tags, t.tag_name ≠ n) :
    AssignUnassignTags_post st (some "assign") (some n) vm_ids =
      (⟨"error", 101, "error: No TagsModel matches the given query."⟩, st) := by
  have hfilter : st.tags.filter (fun t => some t.tag_name == some n) = [] := by
    rw [List.filter_eq_nil_iff]
    intro t ht
    simp [hNo t ht]
  simp only [AssignUnassignTags_post]
  rw [if_pos (by rfl), hfilter]

/-- C8 witness: the amended claim evaluated over c8Store. -/
theorem assign_missing_tag_code101_witness :
    AssignUnassignTags_post c8Store (some "assign") (some "missing") [5] =
      (⟨"error", 101, "error: No TagsModel matches the given query."⟩, c8Store) :=
  assign_missing_tag_code101 c8Store "missing" [5] (by decide)

/-- C9: the failing input evaluated.  c9Store holds the tag (env, null):
createTag stores an empty scope as null (second conjunct), but the
create-if-absent path of createVM looks the pair up with the raw empty
scope, misses the stored null-scope tag, and the create then trips the
normalised duplicate check, so the call fails with code 103 and rolls the
VM row back instead of reusing the tag: the store is unchanged. -/
theorem createVM_empty_scope_reuse_fails :
    (VMs_post c9Store 10 [2] "vm-a" ["env:"] 7).1 =
      ⟨"error", 103, "Validation error: This tag already exists."⟩ ∧
    (VMs_post c9Store 10 [2] "vm-a" ["env:"] 7).2 = c9Store ∧
    (Tags_post ⟨[7], [], [], []⟩ 3 (some "env") (some "") 7).2.tags =
      [⟨3, "env", none, 7⟩] := by
  decide

/-- C10: deleting a tag id that matches no row, requested by the admin id 1,
takes the success branch (no existence check is made) and leaves the store
unchanged.  The foreign-key hypothesis states that association rows only
reference existing tags, which the real through table enforces. -/
theorem deleteTag_missing_tag_admin_success (st : Store) (tid : Nat)
    (hNo : ∀ t ∈ st.tags, t.tag_id ≠ tid)
    (hFK : ∀ p ∈ st.assoc, ∃ t ∈ st.tags, t.tag_id = p.1) :
    Tags_delete st (some tid) (some 1) =
      (⟨"success", 0, "Tag deleted successfully."⟩, st) := by
  have hFree : ∀ p ∈ st.assoc, p.1 ≠ tid := by
    intro p hp
    rcases hFK p hp with ⟨t, ht, he⟩
    rw [← he]
    exact hNo t ht
  have hA := tagsDelete_not_assigned st tid hFree
  have hTagsEq : st.tags.filter (fun t => !(t.tag_id == tid)) = st.tags := by
    rw [List.filter_eq_self]
    intro t ht
    simp [hNo t ht]
  have hAssocEq : st.assoc.filter (fun p => !(p.1 == tid)) = st.assoc := by
    rw [List.filter_eq_self]
    intro p hp
    simp [hFree p hp]
  simp only [Tags_delete, hA, Bool.false_eq_true, if_false, beq_self_eq_true,
    Bool.true_or, if_true, hTagsEq, hAssocEq]

/-- C10 witness: over wStore, the admin delete of the absent tag id 99
returns success and changes nothing. -/
theorem deleteTag_missing_tag_admin_success_witness :
    Tags_delete wStore (some 99) (some 1) =
      (⟨"success", 0, "Tag deleted successfully."⟩, wStore) :=
  deleteTag_missing_tag_admin_success wStore 99 (by decide) (by decide)

end TagApi
